import Mathlib

/-!
Shallow embedding of the dawn-wire-example framing layer.

The `Pipe` structure and its operations are translated from src/pipe.hh
(the circular read-write buffer), and the protocol engine functions
(`maybeReadIncomingDawnCmd`, `readMsg`, the EV_READ half of `doIO`,
`GetCmdSpace`, `Flush`, `stop`) from src/protocol.cc.

Bytes are modelled as `Nat`, byte arrays as `List Nat`.  File-descriptor
syscalls are modelled by passing their outcomes (delivered bytes, or the
count accepted by write) as explicit arguments.  Callbacks
(`onFramebufferInfo`, `onSwapchainReservation`, `onFrame`, `onDawnBuffer`)
are modelled as an emitted list of `Event`s carrying the raw bytes handed
to the callback.  The debug-build `assert` statements of `Flush` are
modelled as `Option` failure; the remaining asserts hold on every path
exercised here and are recorded in comments.
-/

/-- In-place overwrite of `data` into list `l` starting at position `pos`
(models `memcpy(l + pos, data, data.length)`; call sites keep
`pos + data.length` within bounds). -/
def listWriteAt (l : List Nat) (pos : Nat) (data : List Nat) : List Nat :=
  l.take pos ++ data ++ l.drop (pos + data.length)

/-- `Pipe<Size>` from src/pipe.hh: a circular read-write buffer.  `size` is
the `Size` template parameter, `storage` the backing array `_storage`,
`w`/`r` the write/read offsets `_w`/`_r`. -/
structure Pipe where
  size : Nat
  storage : List Nat
  w : Nat
  r : Nat
  deriving DecidableEq

/-- Well-formedness: the backing array has length `Size` and both cursors
are in range (as maintained by every operation in src/pipe.hh). -/
def Pipe.WF (p : Pipe) : Prop :=
  p.storage.length = p.size ∧ p.r < p.size ∧ p.w < p.size

instance (p : Pipe) : Decidable p.WF :=
  inferInstanceAs (Decidable (p.storage.length = p.size ∧ p.r < p.size ∧ p.w < p.size))

/-- `cap()`: `Size - 1`. -/
def Pipe.cap (p : Pipe) : Nat := p.size - 1

/-- `len()`: `(Size - _r + _w) % Size`. -/
def Pipe.len (p : Pipe) : Nat := (p.size - p.r + p.w) % p.size

/-- `avail()`: `(Size - 1 - _w + _r) % Size`. -/
def Pipe.avail (p : Pipe) : Nat := (p.size - 1 - p.w + p.r) % p.size

/-- The data copied out by `Pipe::read(dst, nbyte)`: at most
`min nbyte len` bytes, in two chunks around the physical end of storage. -/
def Pipe.readBytes (p : Pipe) (nbyte : Nat) : List Nat :=
  let n := min nbyte p.len
  let chunkend := min n (p.size - p.r)
  (p.storage.drop p.r).take chunkend ++ p.storage.take (n - chunkend)

/-- `Pipe::read` (src/pipe.hh lines 119-131): copies `min nbyte len` bytes
out and advances `_r` by that amount.  Returns the copied bytes together
with the updated buffer. -/
def Pipe.read (p : Pipe) (nbyte : Nat) : List Nat × Pipe :=
  (p.readBytes nbyte, { p with r := (p.r + min nbyte p.len) % p.size })

/-- `Pipe::discard` (src/pipe.hh lines 160-166). -/
def Pipe.discard (p : Pipe) (nbyte : Nat) : Pipe :=
  { p with r := (p.r + min nbyte p.len) % p.size }

/-- `Pipe::write` (src/pipe.hh lines 81-90): copies `min data.length avail`
bytes into the buffer in up to two chunks and advances `_w`. -/
def Pipe.write (p : Pipe) (data : List Nat) : Nat × Pipe :=
  let nbyte := min data.length p.avail
  let chunkend := min nbyte (p.size - p.w)
  let st1 := listWriteAt p.storage p.w (data.take chunkend)
  let st2 := listWriteAt st1 0 ((data.take nbyte).drop chunkend)
  (nbyte, { p with storage := st2, w := (p.w + nbyte) % p.size })

/-- `Pipe::takeRef` (src/pipe.hh lines 168-190).  Note the source first
clamps `nbyte = min(nbyte, len())`, then succeeds iff the clamped request
does not wrap (`chunkend >= nbyte`), advancing `_r` on success.  On success
the referenced bytes are `storage[_r .. _r+n)`. -/
def Pipe.takeRef (p : Pipe) (nbyte : Nat) : Option (List Nat × Pipe) :=
  let n := min nbyte p.len
  let chunkend := min n (p.size - p.r)
  if n ≤ chunkend then
    some ((p.storage.drop p.r).take n, { p with r := (p.r + n) % p.size })
  else
    none

/-- `Pipe::at` (src/pipe.hh line 75): `return _storage[_r];` — the source
ignores the `index` argument and always yields the byte at the read
cursor. -/
def Pipe.atIndex (p : Pipe) (index : Nat) : Nat := p.storage.getD p.r 0

/-- `Pipe::readFromFD` (src/pipe.hh lines 92-117): up to two read()
syscalls filling the free space; `data` models the byte stream currently
available from the descriptor (a prefix shorter than the requested chunk
models a short read).  Advances `_w` by `total`, the number of bytes
actually obtained.  The error path (read() returning -1) leaves the buffer
untouched and is modelled at the call site (`doIORead`). -/
def Pipe.readFromFD (p : Pipe) (nbyte : Nat) (data : List Nat) : Int × Pipe :=
  let n := min nbyte p.avail
  let chunkend := min n (p.size - p.w)
  let b1 := data.take chunkend
  let st1 := listWriteAt p.storage p.w b1
  if b1.length < chunkend then
    ((b1.length : Int), { p with storage := st1, w := (p.w + b1.length) % p.size })
  else if chunkend < n then
    let b2 := (data.drop chunkend).take (n - chunkend)
    let st2 := listWriteAt st1 0 b2
    (((chunkend + b2.length : Nat) : Int),
      { p with storage := st2, w := (p.w + chunkend + b2.length) % p.size })
  else
    ((chunkend : Int), { p with storage := st1, w := (p.w + chunkend) % p.size })

/-- Outcome of one write() syscall: `ok n` bytes accepted, or `err`
(return value -1). -/
inductive WriteRes
  | ok (n : Nat)
  | err
  deriving DecidableEq

/-- `Pipe::writeToFD` (src/pipe.hh lines 133-158).  `res1`/`res2` are the
outcomes of the up to two write() syscalls (call sites keep `ok n` within
the size of the corresponding chunk).  Note that every path reaching the
`end:` label executes `_r = (_r + nbyte) % Size` — the read cursor is
advanced by the clamped request `nbyte`, not by `total`. -/
def Pipe.writeToFD (p : Pipe) (nbyte : Nat) (res1 res2 : WriteRes) : Int × Pipe :=
  let n := min nbyte p.len
  let chunkend := min n (p.size - p.r)
  let atEnd := fun (total : Int) => (total, { p with r := (p.r + n) % p.size })
  if 0 < chunkend then
    match res1 with
    | WriteRes.err => (-1, p)
    | WriteRes.ok t1 =>
      if t1 < chunkend then
        -- short write: goto end
        atEnd (t1 : Int)
      else if chunkend < n then
        match res2 with
        | WriteRes.err => (-1, p)
        | WriteRes.ok t2 => atEnd ((t1 + t2 : Nat) : Int)
      else
        atEnd (t1 : Int)
  else if chunkend < n then
    match res2 with
    | WriteRes.err => (-1, p)
    | WriteRes.ok t2 => atEnd ((t2 : Nat) : Int)
  else
    atEnd 0

/-- `DAWNCMD_MAX` from src/protocol.hh: maximum size of one Dawn command
batch (4096*32). -/
def DAWNCMD_MAX : Nat := 4096 * 32

/-- Size of the encoded CommandBatch header: one tag byte plus a uint32
length (`encodeDawnCmdHeader` in src/protocol.cc writes `dst[0]` and a
4-byte big-endian value at `dst[1..5]`). -/
def DAWNCMD_MSG_HEADER_SIZE : Nat := 5

/-- Modelled from the spec: `FB_INFO_SIZE = sizeof(DawnRemoteProtocol::FramebufferInfo)`.
The struct declaration is not among the sources; the spec gives the record
`width:u32, height:u32, textureFormatEnum:u32, textureUsageFlags:u32,
dpiScale:u16`, padded to 4-byte alignment.  No theorem below depends on
the exact value, only on it being positive. -/
def FB_INFO_SIZE : Nat := 20

/-- Modelled from the spec: `RESERVATION_SIZE`, the size of the fixed
reservation payload (a pair of id+generation handle records).  No theorem
below depends on the exact value, only on it being positive. -/
def RESERVATION_SIZE : Nat := 16

/-- `encodeDawnCmdHeader` (src/protocol.cc lines 69-72): tag byte 0x44
followed by the length as a big-endian uint32 (`htonl`). -/
def encodeDawnCmdHeader (dawncmdlen : Nat) : List Nat :=
  [68, dawncmdlen / 2 ^ 24 % 256, dawncmdlen / 2 ^ 16 % 256, dawncmdlen / 2 ^ 8 % 256,
    dawncmdlen % 256]

/-- `decodeDawnCmdHeader` (src/protocol.cc lines 74-77); the assert that
`src[0]` is the CommandBatch tag holds at the call site in `readMsg`. -/
def decodeDawnCmdHeader (src : List Nat) : Nat :=
  src.getD 1 0 * 2 ^ 24 + src.getD 2 0 * 2 ^ 16 + src.getD 3 0 * 2 ^ 8 + src.getD 4 0

/-- A callback invocation performed by the engine, carrying the raw bytes
handed to the callback. -/
inductive Event
  | fbInfo (data : List Nat)
  | reservation (data : List Nat)
  | frame
  | dawnBuffer (data : List Nat)
  deriving DecidableEq

/-- The `_dawnout` double-buffered outgoing Dawn command accumulator of
`DawnRemoteProtocol`: `writebuf`/`flushbuf` byte buffers, staged length
`writelen`, drain state `flushlen`/`flushoffs`. -/
structure DawnOut where
  writebuf : List Nat
  flushbuf : List Nat
  writelen : Nat
  flushlen : Nat
  flushoffs : Nat
  deriving DecidableEq

/-- The engine state relevant to the inbound path of `DawnRemoteProtocol`:
inbound buffer `_rbuf`, pending batch-body count `_dawnCmdRLen`, the
outbound accumulator `_dawnout`, whether `stop()` has run (`_rl == null`),
and whether write-readiness was requested (`setNeedsWriteFlush`). -/
structure Proto where
  rbuf : Pipe
  dawnCmdRLen : Nat
  dawnout : DawnOut
  stopped : Bool
  needsWriteFlush : Bool
  deriving DecidableEq

/-- `DawnRemoteProtocol::stop` (src/protocol.cc lines 312-322): resets
`_dawnout.writelen` to the header size, clears `flushlen`, unsubscribes
from IO events. -/
def stopProto (s : Proto) : Proto :=
  { s with
    dawnout := { s.dawnout with writelen := DAWNCMD_MSG_HEADER_SIZE, flushlen := 0 },
    stopped := true }

/-- `DawnRemoteProtocol::maybeReadIncomingDawnCmd` (src/protocol.cc lines
138-157): when the whole pending batch body is buffered, consume exactly
`_dawnCmdRLen` bytes — preferring `takeRef`, falling back to a copying
`read` into `_dawntmp` — invoke `onDawnBuffer`, and clear `_dawnCmdRLen`.
The entry asserts (`0 < _dawnCmdRLen ≤ DAWNCMD_MAX`) hold at the guarded
call site in `doIO`; the theorems below exercise no other path through
this function. -/
def maybeReadIncomingDawnCmd (s : Proto) : Proto × List Event × Bool :=
  if s.rbuf.len < s.dawnCmdRLen then (s, [], false)
  else
    match s.rbuf.takeRef s.dawnCmdRLen with
    | some (buf, rb) =>
      ({ s with rbuf := rb, dawnCmdRLen := 0 }, [Event.dawnBuffer buf], true)
    | none =>
      let (buf, rb) := s.rbuf.read s.dawnCmdRLen
      ({ s with rbuf := rb, dawnCmdRLen := 0 }, [Event.dawnBuffer buf], true)

/-- Result of one iteration of the `readMsg` while-loop: `done` when the
function returns (loop exited), `next` when control reaches the bottom of
the loop body with the updated state. -/
inductive StepRes
  | done (ok : Bool) (s : Proto) (evs : List Event)
  | next (s : Proto) (evs : List Event)
  deriving DecidableEq

/-- One iteration of the `while (_rbuf.len() > 0)` loop body of
`DawnRemoteProtocol::readMsg` (src/protocol.cc lines 160-217), for a state
whose buffer is nonempty.  Tags: 0x49 FramebufferInfo, 0x52 Reservation,
0x46 FrameSignal, 0x44 CommandBatch.  The FramebufferInfo and Reservation
cases call `_rbuf.read(tmp, SIZE+1)` with no availability check, exactly
as the source does; the CommandBatch case consumes nothing when fewer than
`DAWNCMD_MSG_HEADER_SIZE` bytes are buffered (the `break` in the source
only exits the switch). -/
def readMsgStep (s : Proto) : StepRes :=
  let tag := s.rbuf.atIndex 0
  if tag = 73 then
    let (data, rb) := s.rbuf.read (FB_INFO_SIZE + 1)
    StepRes.next { s with rbuf := rb } [Event.fbInfo data]
  else if tag = 82 then
    let (data, rb) := s.rbuf.read (RESERVATION_SIZE + 1)
    StepRes.next { s with rbuf := rb } [Event.reservation data]
  else if tag = 70 then
    let rb := s.rbuf.discard 1
    if s.dawnout.flushlen = 0 then
      StepRes.next { s with rbuf := rb } [Event.frame]
    else
      StepRes.next { s with rbuf := rb } []
  else if tag = 68 then
    if DAWNCMD_MSG_HEADER_SIZE ≤ s.rbuf.len then
      let (hdr, rb) := s.rbuf.read DAWNCMD_MSG_HEADER_SIZE
      let s1 := { s with rbuf := rb, dawnCmdRLen := decodeDawnCmdHeader hdr }
      let (s2, evs, _) := maybeReadIncomingDawnCmd s1
      StepRes.next s2 evs
    else
      StepRes.next s []
  else
    StepRes.done false (stopProto s) []

/-- The `readMsg` loop driven with `fuel` iterations; `none` means the
loop did not exit within `fuel` iterations.  On exit it returns the
return value of `readMsg`, the final state and the emitted events. -/
def readMsgFuel : Nat → Proto → Option (Bool × Proto × List Event)
  | 0, _ => none
  | fuel + 1, s =>
    if s.rbuf.len = 0 then
      some (true, s, [])
    else
      match readMsgStep s with
      | StepRes.done ok s' evs => some (ok, s', evs)
      | StepRes.next s' evs =>
        match readMsgFuel fuel s' with
        | none => none
        | some (ok, s'', evs') => some (ok, s'', evs ++ evs')

/-- `sizeof(_dawnout.writebuf)` as the source computes it: the `Flush`
buffer swap (src/protocol.cc lines 362-364) assigns `_dawnout.flushbuf`
and `_dawnout.writebuf`, and arrays are not assignable, so both members
are `char*` and `sizeof` yields the pointer size — 8 on the 64-bit
target. -/
def PTRSIZE : Nat := 8

/-- The modulus of `size_t` arithmetic on the 64-bit target. -/
def SIZE_T_MOD : Nat := 2 ^ 64

/-- `DawnRemoteProtocol::GetCmdSpace` (src/protocol.cc lines 332-342).
Returns the offset into `writebuf` of the reserved region (the source
returns `&writebuf[writelen]`) paired with the updated accumulator, or
`none` for the `nullptr` not-enough-space return.  The guard is the
source expression `sizeof(_dawnout.writebuf) - size < _dawnout.writelen`:
`sizeof` of the `char*` member is `PTRSIZE`, and the subtraction wraps in
`size_t` arithmetic, so the comparison is against
`(PTRSIZE - size) mod 2^64` — not against the accumulator capacity.  The
entry assert `size <= DAWNCMD_MAX` is carried as a hypothesis of the
theorems about it.  Note: the source contains no call to `Flush`. -/
def GetCmdSpace (d : DawnOut) (size : Nat) : Option (Nat × DawnOut) :=
  if (PTRSIZE + SIZE_T_MOD - size) % SIZE_T_MOD < d.writelen then
    none
  else
    some (d.writelen, { d with writelen := d.writelen + size })

/-- `DawnRemoteProtocol::Flush` (src/protocol.cc lines 344-377); the two
assert statements are modelled as `none`.  The returned Bool records
whether write-readiness was requested (`setNeedsWriteFlush`). -/
def Flush (d : DawnOut) : Option (DawnOut × Bool) :=
  if d.flushlen ≠ 0 then
    none
  else if DAWNCMD_MSG_HEADER_SIZE < d.writelen then
    some
      ({ writebuf := d.flushbuf,
         flushbuf := listWriteAt d.writebuf 0
           (encodeDawnCmdHeader (d.writelen - DAWNCMD_MSG_HEADER_SIZE)),
         writelen := DAWNCMD_MSG_HEADER_SIZE,
         flushlen := d.writelen,
         flushoffs := 0 }, true)
  else if d.writelen = DAWNCMD_MSG_HEADER_SIZE then
    some (d, false)
  else
    none

/-- What the descriptor does when the EV_READ handler issues its single
non-blocking read: deliver bytes (`[]` models EOF, return value 0), or
fail with -1 (`eagain` tells whether errno is EAGAIN). -/
inductive FdEvent
  | bytes (data : List Nat)
  | fail (eagain : Bool)
  deriving DecidableEq

/-- The EV_READ half of `DawnRemoteProtocol::doIO` (src/protocol.cc lines
229-249).  Mirrors the source line
`ssize_t n = _rbuf.readFromFD(_io.fd, _rbuf.cap()) > 0;` — the comparison
result, 0 or 1, is what is stored in `n` and branched on.  Returns `none`
when the `readMsg` loop does not exit within `fuel` iterations. -/
def doIORead (s : Proto) (fd : FdEvent) (fuel : Nat) : Option (Proto × List Event) :=
  match fd with
  | FdEvent.fail eagain =>
    let res : Int := -1
    let n : Int := if 0 < res then 1 else 0
    if n ≤ 0 then
      if n < 0 then
        if eagain then some (s, []) else some (stopProto s, [])
      else
        some (stopProto s, [])
    else
      some (s, [])
  | FdEvent.bytes data =>
    let rr := s.rbuf.readFromFD s.rbuf.cap data
    let n : Int := if 0 < rr.1 then 1 else 0
    let s1 := { s with rbuf := rr.2 }
    if n ≤ 0 then
      some (stopProto s1, [])
    else if 0 < s1.dawnCmdRLen then
      let (s2, evs, _) := maybeReadIncomingDawnCmd s1
      some (s2, evs)
    else
      match readMsgFuel fuel s1 with
      | none => none
      | some (_, s2, evs) => some (s2, evs)

/-- Fresh accumulator as initialized in the class declaration: staged
length is the reserved header, nothing draining. -/
def dawnOut0 : DawnOut :=
  { writebuf := [], flushbuf := [], writelen := DAWNCMD_MSG_HEADER_SIZE,
    flushlen := 0, flushoffs := 0 }

/-- Engine start state with an empty 8-byte inbound ring. -/
def proto0 : Proto :=
  { rbuf := { size := 8, storage := [0, 0, 0, 0, 0, 0, 0, 0], w := 0, r := 0 },
    dawnCmdRLen := 0, dawnout := dawnOut0, stopped := false, needsWriteFlush := false }

/-- Engine state whose inbound ring holds exactly one CommandBatch tag
byte 0x44 (the result of delivering the first byte of a batch). -/
def protoStuck : Proto :=
  { proto0 with rbuf := { size := 8, storage := [68, 0, 0, 0, 0, 0, 0, 0], w := 1, r := 0 } }

/-- Engine state whose inbound ring holds exactly one FramebufferInfo tag
byte 0x49 (payload not yet delivered). -/
def protoTagI : Proto :=
  { proto0 with rbuf := { size := 8, storage := [73, 0, 0, 0, 0, 0, 0, 0], w := 1, r := 0 } }

/-- Engine state holding one FrameSignal byte 0x46, with `flushlen = fl`. -/
def protoTagF (fl : Nat) : Proto :=
  { proto0 with
    rbuf := { size := 8, storage := [70, 0, 0, 0, 0, 0, 0, 0], w := 1, r := 0 },
    dawnout := { dawnOut0 with flushlen := fl } }

/-- `protoTagF fl` after the FrameSignal byte has been consumed. -/
def protoTagFPost (fl : Nat) : Proto :=
  { protoTagF fl with rbuf := { size := 8, storage := [70, 0, 0, 0, 0, 0, 0, 0], w := 1, r := 1 } }

/-- Concrete buffer for exercising `writeToFD`: 4 buffered bytes starting
at `r = 0`. -/
def pipeW : Pipe := { size := 8, storage := [10, 20, 30, 40, 50, 60, 70, 80], w := 4, r := 0 }

/-- Concrete buffer holding 4 bytes, read window not wrapping. -/
def pipeTake : Pipe := { size := 8, storage := [1, 2, 3, 4, 5, 6, 7, 8], w := 4, r := 0 }

/-- Concrete buffer holding only 2 bytes. -/
def pipeShort : Pipe := { size := 8, storage := [1, 2, 3, 4, 5, 6, 7, 8], w := 2, r := 0 }

/-- Concrete buffer whose read cursor sits on the first of two stored
bytes. -/
def pAt : Pipe := { size := 8, storage := [5, 6, 0, 0, 0, 0, 0, 0], w := 2, r := 0 }

/-- Accumulator with 2 staged payload bytes beyond the reserved header. -/
def dFlushW : DawnOut :=
  { writebuf := [0, 0, 0, 0, 0, 9, 9], flushbuf := [1, 2, 3, 4, 5, 6, 7],
    writelen := 7, flushlen := 0, flushoffs := 0 }

/-- `dFlushW` after `Flush`: buffers swapped, header encoded in place,
drain started. -/
def dFlushWPost : DawnOut :=
  { writebuf := [1, 2, 3, 4, 5, 6, 7], flushbuf := [68, 0, 0, 0, 2, 9, 9],
    writelen := DAWNCMD_MSG_HEADER_SIZE, flushlen := 7, flushoffs := 0 }

/-- Accumulator staged completely full (`writelen = DAWNCMD_MAX`), with no
drain in progress. -/
def dFull : DawnOut :=
  { writebuf := [], flushbuf := [], writelen := DAWNCMD_MAX, flushlen := 0, flushoffs := 0 }

/-- Accumulator with one staged payload byte beyond the reserved header
(`writelen = 6`), with no drain in progress and ample free capacity. -/
def dSix : DawnOut :=
  { writebuf := [], flushbuf := [], writelen := 6, flushlen := 0, flushoffs := 0 }

/-- Split of `a % N` into the two linear cases used by the cursor
arithmetic below. -/
theorem mod_two_cases (a N : Nat) (hN : 0 < N) (h : a < 2 * N) :
    a % N = if a < N then a else a - N := by
  split_ifs with hc
  · exact Nat.mod_eq_of_lt hc
  · rw [Nat.mod_eq_sub_mod (le_of_not_lt hc)]
    exact Nat.mod_eq_of_lt (by omega)

/-- Advancing the read cursor by `k ≤ len` bytes shrinks `len` by `k`. -/
theorem ringLen_sub (N r w k : Nat) (hr : r < N) (hw : w < N)
    (hk : k ≤ (N - r + w) % N) :
    (N - (r + k) % N + w) % N = (N - r + w) % N - k := by
  have hN : 0 < N := by omega
  have hL : (N - r + w) % N < N := Nat.mod_lt _ hN
  have e2 : (N - r + w) % N = if N - r + w < N then N - r + w else N - r + w - N :=
    mod_two_cases _ _ hN (by omega)
  have e1 : (r + k) % N = if r + k < N then r + k else r + k - N :=
    mod_two_cases _ _ hN (by omega)
  rw [e2] at hk hL ⊢
  rw [e1]
  split_ifs at hk hL ⊢ with h1 h2
  · rw [mod_two_cases _ N hN (by omega)]
    split_ifs <;> omega
  · rw [mod_two_cases _ N hN (by omega)]
    split_ifs <;> omega
  · rw [mod_two_cases _ N hN (by omega)]
    split_ifs <;> omega
  · rw [mod_two_cases _ N hN (by omega)]
    split_ifs <;> omega

/-- `Pipe::discard k` on a well-formed buffer with at least `k` buffered
bytes removes exactly `k` bytes. -/
theorem Pipe.len_discard (p : Pipe) (hw : p.WF) (k : Nat) (hk : k ≤ p.len) :
    (p.discard k).len = p.len - k := by
  obtain ⟨hs, hr, hww⟩ := hw
  have hmin : min k p.len = k := min_eq_left hk
  show (p.size - (p.r + min k p.len) % p.size + p.w) % p.size = p.len - k
  rw [hmin]
  exact ringLen_sub p.size p.r p.w k hr hww hk

/-- If the buffer holds a CommandBatch tag but fewer than
`DAWNCMD_MSG_HEADER_SIZE` bytes in total, the `readMsg` loop body changes
nothing, so the loop never exits regardless of fuel. -/
theorem readMsgFuel_stuck (s : Proto) (h1 : s.rbuf.len ≠ 0)
    (h2 : s.rbuf.atIndex 0 = 68) (h3 : s.rbuf.len < DAWNCMD_MSG_HEADER_SIZE) :
    ∀ fuel, readMsgFuel fuel s = none := by
  have h4 : ¬ DAWNCMD_MSG_HEADER_SIZE ≤ s.rbuf.len := by omega
  have hstep : readMsgStep s = StepRes.next s [] := by
    simp [readMsgStep, h2, h4]
  intro fuel
  induction fuel with
  | zero => rfl
  | succ n ih => simp [readMsgFuel, h1, hstep, ih]

/-- Claim C1.  The claim states that a CommandBatch message split across
arbitrarily many partial reads (including one byte at a time) yields
exactly one `onDawnBuffer` callback with the N payload bytes.  Evaluating
the code at the failing input: delivering the first byte of the message —
the tag 0x44 alone — makes the `readMsg` loop spin forever (the
CommandBatch case consumes nothing when fewer than 5 bytes are buffered
and its `break` only exits the switch), so the EV_READ handler never
returns and `onDawnBuffer` is never invoked, for any amount of fuel. -/
theorem dawnCmd_byte_at_a_time_hangs :
    ∀ fuel, doIORead proto0 (FdEvent.bytes [68]) fuel = none := by
  intro fuel
  show (match readMsgFuel fuel protoStuck with
        | none => none
        | some (_, s2, evs) => some (s2, evs)) = none
  rw [readMsgFuel_stuck protoStuck (by decide) (by decide) (by decide) fuel]

/-- Claim C2.  The claim states that a would-block read (negative return
with errno EAGAIN) leaves the connection up and unchanged.  Evaluating the
code at the failing input: the source stores `readFromFD(...) > 0` into
`n`, so on a -1 return `n` is 0, the `n < 0` branch guarding the EAGAIN
check is dead, and `stop()` runs — the connection is torn down on
would-block exactly as on EOF, whatever `errno` says. -/
theorem doIORead_eagain_stops :
    ∀ (s : Proto) (fuel : Nat),
      doIORead s (FdEvent.fail true) fuel = some (stopProto s, []) ∧
      doIORead s (FdEvent.fail false) fuel = some (stopProto s, []) ∧
      (stopProto s).stopped = true :=
  fun _ _ => ⟨rfl, rfl, rfl⟩

/-- Claim C3.  The claim states that on a short descriptor write,
`writeToFD` advances the read cursor only by the bytes actually written,
symmetric to `readFromFD`.  Evaluating the code at the failing input: with
4 buffered bytes and a write() that accepts only 2, `writeToFD` returns 2
but executes `_r = (_r + nbyte) % Size`, advancing the cursor from 0 to 4
and silently dropping the 2 unwritten bytes; `readFromFD`, by contrast,
advances its cursor by the 2 bytes actually transferred. -/
theorem writeToFD_overadvances_cursor :
    pipeW.r = 0 ∧ pipeW.len = 4 ∧
    pipeW.writeToFD 4 (WriteRes.ok 2) (WriteRes.ok 0) = (2, { pipeW with r := 4 }) ∧
    (Pipe.readFromFD { size := 8, storage := [0, 0, 0, 0, 0, 0, 0, 0], w := 0, r := 0 }
        7 [1, 2]).2.w = 2 := by
  decide

/-- Claim C4.  The claim states that the `readMsg` parse loop terminates
for every buffer content, exiting as soon as the buffer no longer holds a
complete next unit.  Evaluating the code at the failing input: with the
buffer holding exactly one CommandBatch tag byte 0x44 (header not yet
arrived), the loop body consumes nothing and the loop never exits, for any
amount of fuel. -/
theorem readMsg_spins_on_short_dawn_header :
    protoStuck.rbuf.len = 1 ∧ ∀ fuel, readMsgFuel fuel protoStuck = none :=
  ⟨by decide, readMsgFuel_stuck protoStuck (by decide) (by decide) (by decide)⟩

/-- Claim C5.  The claim states that for FramebufferInfo (and Reservation)
the engine consumes and dispatches only once the tag plus the whole fixed
payload is buffered, and consumes nothing otherwise.  Evaluating the code
at the failing input: with only the tag byte 0x49 buffered, `readMsg`
calls `_rbuf.read(tmp, FB_INFO_SIZE + 1)` with no availability check,
consuming the single buffered byte and invoking the FramebufferInfo
callback (on a scratch buffer of which only byte 0 was filled). -/
theorem fbInfo_consumed_without_payload :
    protoTagI.rbuf.len = 1 ∧ 1 < FB_INFO_SIZE + 1 ∧
    readMsgFuel 2 protoTagI =
      some (true,
        { protoTagI with
          rbuf := { size := 8, storage := [73, 0, 0, 0, 0, 0, 0, 0], w := 1, r := 1 } },
        [Event.fbInfo [73]]) := by
  decide

/-- Claim C6.  Consuming a FrameSignal byte invokes the frame callback
exactly when no command batch is draining (`flushlen = 0`); while a drain
is in progress the signal is dropped — no event, nothing queued, the
connection stays up — and exactly one byte is consumed either way.  The
two closing conjuncts replay the back-to-back scenario: a FrameSignal
consumed with no drain in progress fires the callback once, and a second
FrameSignal consumed while the resulting batch is still draining fires
nothing. -/
theorem frameSignal_drop_while_draining (s : Proto) (hw : s.rbuf.WF)
    (h1 : s.rbuf.len ≠ 0) (h2 : s.rbuf.atIndex 0 = 70) :
    readMsgStep s =
      StepRes.next { s with rbuf := s.rbuf.discard 1 }
        (if s.dawnout.flushlen = 0 then [Event.frame] else []) ∧
    (s.rbuf.discard 1).len = s.rbuf.len - 1 ∧
    readMsgFuel 2 (protoTagF 0) = some (true, protoTagFPost 0, [Event.frame]) ∧
    readMsgFuel 2 (protoTagF 9) = some (true, protoTagFPost 9, []) := by
  refine ⟨?_, Pipe.len_discard s.rbuf hw 1 (by omega), by decide, by decide⟩
  by_cases hf : s.dawnout.flushlen = 0 <;> simp [readMsgStep, h2, hf]

/-- Witness for C6 at a concrete draining state: the signal byte is
consumed, no frame event is emitted. -/
theorem frameSignal_drop_while_draining_witness :
    readMsgStep (protoTagF 9) =
      StepRes.next { protoTagF 9 with rbuf := (protoTagF 9).rbuf.discard 1 } [] ∧
    ((protoTagF 9).rbuf.discard 1).len = (protoTagF 9).rbuf.len - 1 := by
  have h := frameSignal_drop_while_draining (protoTagF 9) (by decide) (by decide) (by decide)
  exact ⟨h.1, h.2.1⟩

/-- Claim C7.  `Flush` succeeds only from states with `flushlen = 0` (the
assert enforcing the at-most-one-in-flight-batch invariant), and on
success: when staged bytes beyond the reserved header exist it encodes the
length header in place at the start of the buffer, swaps the two buffers,
sets `flushlen` to the staged length with `flushoffs = 0`, requests
write-readiness, and resets `writelen` to the header size; with no staged
bytes it changes nothing and requests nothing. -/
theorem Flush_spec (d : DawnOut) :
    (d.flushlen ≠ 0 → Flush d = none) ∧
    (∀ d' req, Flush d = some (d', req) →
      d.flushlen = 0 ∧
      (DAWNCMD_MSG_HEADER_SIZE < d.writelen →
        d'.writebuf = d.flushbuf ∧
        d'.flushbuf = listWriteAt d.writebuf 0
          (encodeDawnCmdHeader (d.writelen - DAWNCMD_MSG_HEADER_SIZE)) ∧
        d'.flushlen = d.writelen ∧ d'.flushoffs = 0 ∧
        d'.writelen = DAWNCMD_MSG_HEADER_SIZE ∧ req = true) ∧
      (¬ DAWNCMD_MSG_HEADER_SIZE < d.writelen → d' = d ∧ req = false)) := by
  constructor
  · intro h
    simp [Flush, h]
  · intro d' req h
    by_cases hf : d.flushlen ≠ 0
    · rw [Flush, if_pos hf] at h
      exact absurd h (by simp)
    · by_cases hgt : DAWNCMD_MSG_HEADER_SIZE < d.writelen
      · rw [Flush, if_neg hf, if_pos hgt] at h
        injection h with h1
        injection h1 with ha hb
        subst hb
        refine ⟨not_not.mp hf, fun _ => ?_, fun hn => absurd hgt hn⟩
        rw [← ha]
        exact ⟨rfl, rfl, rfl, rfl, rfl, rfl⟩
      · by_cases heq : d.writelen = DAWNCMD_MSG_HEADER_SIZE
        · rw [Flush, if_neg hf, if_neg hgt, if_pos heq] at h
          injection h with h1
          injection h1 with ha hb
          subst hb
          exact ⟨not_not.mp hf, fun hc => absurd hc hgt, fun _ => ⟨ha.symm, rfl⟩⟩
        · rw [Flush, if_neg hf, if_neg hgt, if_neg heq] at h
          exact absurd h (by simp)

/-- Witness for C7: flushing an accumulator with 2 staged payload bytes
starts the drain and frees the staging side. -/
theorem Flush_spec_witness :
    dFlushW.flushlen = 0 ∧ dFlushWPost.flushlen = dFlushW.writelen ∧
    dFlushWPost.flushoffs = 0 ∧ dFlushWPost.writelen = DAWNCMD_MSG_HEADER_SIZE := by
  have h := (Flush_spec dFlushW).2 dFlushWPost true (by decide)
  have h2 := h.2.1 (by decide)
  exact ⟨h.1, h2.2.2.1, h2.2.2.2.1, h2.2.2.2.2.1⟩

/-- Counterexample for C8 as stated, in both directions.  First: with one
staged byte beyond the header (`writelen = 6`) and no drain in progress, a
4-byte request fits the fixed capacity with room to spare, yet
`GetCmdSpace` fails — the guard compares the wrapped `sizeof(char*) - 4`
(= 4) against `writelen`, not the capacity — so the operation neither
returns the fitting region nor "fails only if space is still insufficient
after a flush" (space was sufficient without any flush).  Second: with the
accumulator staged completely full, a `DAWNCMD_MAX`-byte request overflows
the fixed capacity and no flush could make it fit, yet `GetCmdSpace`
succeeds, pushing `writelen` to twice the capacity. -/
theorem GetCmdSpace_wrapcheck_cex :
    (dSix.writelen + 4 ≤ DAWNCMD_MAX ∧ dSix.flushlen = 0 ∧
      GetCmdSpace dSix 4 = none) ∧
    (DAWNCMD_MAX < dFull.writelen + DAWNCMD_MAX ∧ dFull.flushlen = 0 ∧
      GetCmdSpace dFull DAWNCMD_MAX =
        some (DAWNCMD_MAX, { dFull with writelen := DAWNCMD_MAX + DAWNCMD_MAX })) := by
  decide

/-- Claim C8, amended.  `GetCmdSpace` never triggers a flush and its guard
does not involve the fixed accumulator capacity: the source compares
`sizeof(_dawnout.writebuf) - size` — pointer size minus `size`, wrapping
in `size_t` — against `writelen`.  Hence for `size ≤ PTRSIZE` (8) the
request fails exactly when `PTRSIZE - size < writelen`, while for
`PTRSIZE < size ≤ DAWNCMD_MAX` (the entry assert) the wrapped difference
is astronomically large and the request succeeds for every attainable
`writelen`, returning the region at offset `writelen` and advancing
`writelen` by `size` — even when that exceeds the fixed capacity. -/
theorem GetCmdSpace_spec (d : DawnOut) (size : Nat) (hs : size ≤ DAWNCMD_MAX) :
    (size ≤ PTRSIZE →
      GetCmdSpace d size =
        if PTRSIZE - size < d.writelen then none
        else some (d.writelen, { d with writelen := d.writelen + size })) ∧
    (PTRSIZE < size → d.writelen ≤ SIZE_T_MOD + PTRSIZE - size →
      GetCmdSpace d size = some (d.writelen, { d with writelen := d.writelen + size })) := by
  have hS : SIZE_T_MOD = 18446744073709551616 := by norm_num [SIZE_T_MOD]
  have hP : PTRSIZE = 8 := rfl
  have hM : DAWNCMD_MAX = 131072 := rfl
  constructor
  · intro h
    have e : (PTRSIZE + SIZE_T_MOD - size) % SIZE_T_MOD = PTRSIZE - size := by
      rw [hS, hP] at *
      omega
    unfold GetCmdSpace
    rw [e]
  · intro h hw
    have e : (PTRSIZE + SIZE_T_MOD - size) % SIZE_T_MOD = SIZE_T_MOD + PTRSIZE - size := by
      rw [hS, hP] at *
      rw [hM] at hs
      omega
    unfold GetCmdSpace
    rw [e, if_neg (by omega)]

/-- Witness for C8 (amended), applying both branches at concrete inputs:
on a fresh accumulator (`writelen = 5`) a 2-byte request succeeds at
offset 5 (the wrapped guard value 6 is not below 5), and a 100-byte
request also succeeds — the wrapped guard value is astronomically
large — advancing `writelen` to 105. -/
theorem GetCmdSpace_spec_witness :
    GetCmdSpace dawnOut0 2 = some (5, { dawnOut0 with writelen := 7 }) ∧
    GetCmdSpace dawnOut0 100 = some (5, { dawnOut0 with writelen := 105 }) := by
  constructor
  · have h := (GetCmdSpace_spec dawnOut0 2 (by decide)).1 (by decide)
    rw [h]
    decide
  · exact (GetCmdSpace_spec dawnOut0 100 (by decide)).2 (by decide) (by decide)

/-- Counterexample for C9 as stated: on a buffer holding only 2 bytes,
`takeRef 5` does not return none — the source clamps the request to
`len()` first — but succeeds with a 2-byte view and advances the read
cursor by 2. -/
theorem takeRef_clamped_cex :
    pipeShort.len = 2 ∧
    pipeShort.takeRef 5 = some ([1, 2], { pipeShort with r := 2 }) := by
  decide

/-- Claim C9, amended.  For `n ≤ len`, `takeRef n` succeeds — returning
the next `n` bytes exactly and advancing the read cursor by `n`, touching
nothing else — if and only if the window `[r, r+n)` does not cross the
physical end of storage, and returns none with the buffer untouched
otherwise; for `n > len` the source clamps the request to `len()`, so
`takeRef n` behaves as `takeRef len` and can succeed with a
shorter-than-`n` view. -/
theorem takeRef_spec (p : Pipe) (n : Nat) (hw : p.WF) :
    (n ≤ p.len →
      (p.r + n ≤ p.size →
        p.takeRef n = some ((p.storage.drop p.r).take n, { p with r := (p.r + n) % p.size })) ∧
      (p.size < p.r + n → p.takeRef n = none) ∧
      (∀ bytes p', p.takeRef n = some (bytes, p') →
        bytes.length = n ∧ p'.r = (p.r + n) % p.size ∧ p'.storage = p.storage ∧ p'.w = p.w)) ∧
    p.takeRef n = p.takeRef (min n p.len) := by
  obtain ⟨hs, hr, hww⟩ := hw
  constructor
  · intro hn
    have hmin : min n p.len = n := min_eq_left hn
    refine ⟨?_, ?_, ?_⟩
    · intro hle
      simp only [Pipe.takeRef, hmin]
      rw [if_pos (le_min le_rfl (by omega))]
    · intro hgt
      simp only [Pipe.takeRef, hmin]
      rw [if_neg (by rw [le_min_iff]; omega)]
    · intro bytes p' h
      simp only [Pipe.takeRef, hmin] at h
      by_cases hc : n ≤ min n (p.size - p.r)
      · rw [if_pos hc] at h
        rw [le_min_iff] at hc
        injection h with h1
        injection h1 with hb hp
        subst hp
        refine ⟨?_, rfl, rfl, rfl⟩
        rw [← hb, List.length_take, List.length_drop, hs]
        omega
      · rw [if_neg hc] at h
        exact absurd h (by simp)
  · simp only [Pipe.takeRef, Nat.min_assoc, Nat.min_self]

/-- Witness for C9 (amended): taking 3 of 4 buffered non-wrapping bytes
yields exactly those 3 bytes and moves the cursor to 3. -/
theorem takeRef_spec_witness :
    pipeTake.takeRef 3 = some ([1, 2, 3], { pipeTake with r := 3 }) :=
  ((takeRef_spec pipeTake 3 (by decide)).1 (by decide)).1 (by decide)

/-- Claim C10.  `Pipe::at` ignores its index argument: for every buffer
state and all indices the result is the byte at the read cursor,
`storage[_r]`.  The closing conjuncts evaluate the concrete contrast: on a
buffer storing bytes 5, 6 at positions 0, 1 with the read cursor at 0,
`at(1)` yields 5 — the byte at the cursor — and not the byte 6 at logical
offset 1. -/
theorem at_ignores_index :
    (∀ (p : Pipe) (i j : Nat), p.atIndex i = p.atIndex j) ∧
    (∀ (p : Pipe) (i : Nat), p.atIndex i = p.storage.getD p.r 0) ∧
    pAt.atIndex 1 = 5 ∧ pAt.storage.getD 1 0 = 6 :=
  ⟨fun _ _ _ => rfl, fun _ _ => rfl, by decide, by decide⟩
